import Mathlib

/-!
# kep3: the epoch class, kep_clock, the JPL low-precision planets and the Python bindings

A shallow embedding of `include/kep3/epoch.hpp`, `src/planets/jpl_lp.cpp` and
`pykep/expose_udplas.cpp`, with models of the anomaly converters and of the Lambert
solver taken from the specification.

* 64-bit signed integers (`int_fast64_t`, `long`, `std::time_t`) are integers carrying
  their range. An arithmetic step whose mathematical result leaves the range is signed
  overflow, undefined in C++, and is modelled by `none`.
* `std::chrono::duration_cast` follows the four cases of the C++ standard
  ([time.duration.cast]); integer division truncates toward zero (`Int.tdiv`).
* A member function is a function of the object state that returns the state of the
  object after the call together with the returned value, so that statements about what
  a call leaves in the object can be made.
* Output to `std::cout` is not modelled.
-/

namespace kep3

/-! ## 64-bit signed integers -/

/-- Smallest value of a 64-bit signed integer. -/
def INT64_MIN : Int := -9223372036854775808

/-- Largest value of a 64-bit signed integer. -/
def INT64_MAX : Int := 9223372036854775807

/-- A 64-bit signed integer: `int_fast64_t`, `long int` and `std::time_t` on the
LP64 targets the library is built for. -/
structure I64 where
  val : Int
  lo : -9223372036854775808 ≤ val
  hi : val ≤ 9223372036854775807
deriving DecidableEq

/-- The result of a signed 64-bit arithmetic step whose mathematical value is `x`:
the value itself when it is representable, `none` (overflow, undefined behaviour)
otherwise. -/
def checked (x : Int) : Option I64 :=
  if h : -9223372036854775808 ≤ x ∧ x ≤ 9223372036854775807 then some ⟨x, h.1, h.2⟩ else none

/-- A `std::ratio<Num, Den>` used as the period of a duration, in seconds per tick. -/
structure period where
  Num : Nat
  Den : Nat
deriving DecidableEq

/-- The period `std::ratio<1, 1000000>` of `kep_clock::duration` (`std::micro`). -/
def period.micro : period := ⟨1, 1000000⟩

/-- The period `std::ratio<1>` of `std::chrono::seconds`. -/
def period.seconds : period := ⟨1, 1⟩

/-- The period `std::ratio<86400>` of `std::chrono::days`. -/
def period.days : period := ⟨86400, 1⟩

/-- A period the standard accepts: numerator and denominator positive and representable
as `intmax_t`. -/
def period.valid (p : period) : Prop :=
  0 < p.Num ∧ (p.Num : Int) ≤ INT64_MAX ∧ 0 < p.Den ∧ (p.Den : Int) ≤ INT64_MAX

instance (p : period) : Decidable p.valid := by
  unfold period.valid; infer_instance

/-- Numerator of the conversion factor `CF = std::ratio_divide<From, To>`, in lowest terms. -/
def CF_num (f t : period) : Nat :=
  f.Num * t.Den / Nat.gcd (f.Num * t.Den) (f.Den * t.Num)

/-- Denominator of the conversion factor `CF = std::ratio_divide<From, To>`, in lowest terms. -/
def CF_den (f t : period) : Nat :=
  f.Den * t.Num / Nat.gcd (f.Num * t.Den) (f.Den * t.Num)

/-- The function `std::chrono::duration_cast<duration<int64, To>>` applied to a
`duration<int64, From>` holding `count` ticks. The computation is done in the common
representation, a 64-bit signed integer. `none` when the instantiation is ill-formed (a
period or the conversion factor is not representable) or when the multiplication
overflows. -/
def duration_cast (f t : period) (count : I64) : Option I64 :=
  if ¬ (f.valid ∧ t.valid ∧ (CF_num f t : Int) ≤ INT64_MAX ∧ (CF_den f t : Int) ≤ INT64_MAX) then
    none
  else if CF_num f t = 1 ∧ CF_den f t = 1 then
    some count
  else if CF_den f t = 1 then
    checked (count.val * (CF_num f t : Int))
  else if CF_num f t = 1 then
    checked (Int.tdiv count.val (CF_den f t : Int))
  else
    (checked (count.val * (CF_num f t : Int))).bind fun p =>
      checked (Int.tdiv p.val (CF_den f t : Int))

/-- The type `dur<Num, Den>` of `epoch.hpp`: `chr::duration<lint, std::ratio<Num, Den>>`. -/
structure dur where
  per : period
  count : I64
deriving DecidableEq

/-! ## kep_clock -/

namespace kep_clock

/-- The type `kep_clock::duration`: a count of microseconds in an `int_fast64_t`. -/
structure duration where
  count : I64
deriving DecidableEq

/-- The type `kep_clock::time_point`: the `kep_clock::duration` elapsed since the zero of
the clock. -/
structure time_point where
  time_since_epoch : duration
deriving DecidableEq

/-- The value-initialised `kep_clock::time_point{}`: zero ticks. -/
def time_point.zero : time_point := ⟨⟨⟨0, by decide, by decide⟩⟩⟩

/-- The constant `y2k_offset{ 946684800s }`, a `chr::seconds`. -/
def y2k_offset : I64 := ⟨946684800, by decide, by decide⟩

/-- Sum of two durations of the clock (`duration::operator+`, `operator+=`). -/
def duration.add (a b : duration) : Option duration :=
  (checked (a.count.val + b.count.val)).map duration.mk

/-- The operation `time_point + duration` (also `time_point::operator+=`). -/
def time_point.add (t : time_point) (d : duration) : Option time_point :=
  (t.time_since_epoch.add d).map time_point.mk

/-- The implicit conversion of a `chr::seconds` to the common type with
`kep_clock::duration`, which is `kep_clock::duration` itself. -/
def of_seconds (s : I64) : Option duration :=
  (duration_cast period.seconds period.micro s).map duration.mk

/-- The constant `ref_epoch{ kep_clock::time_point{} + y2k_offset }`. It is `constexpr`:
the sum is evaluated at compile time, where overflow would be rejected. -/
def ref_epoch : Option time_point :=
  (of_seconds y2k_offset).bind fun off => time_point.zero.add off

/-- The function `kep_clock::to_time_t`:
`duration_cast<chr::seconds>( t.time_since_epoch() + y2k_offset ).count()`. -/
def to_time_t (t : time_point) : Option I64 :=
  (of_seconds y2k_offset).bind fun off =>
    (t.time_since_epoch.add off).bind fun s =>
      duration_cast period.micro period.seconds s.count

end kep_clock

/-! ## epoch -/

/-- The class `kep3::epoch`: its only data member is `kep_clock::time_point tp`. -/
structure epoch where
  tp : kep_clock.time_point
deriving DecidableEq

namespace epoch

/-- Modelled from the spec: the constructor `epoch( const kep_clock::time_point& )` is
declared in `epoch.hpp` and defined in `epoch.cpp`, which is missing. It stores its
argument in `tp`, the only data member of the class. -/
def from_time_point (t : kep_clock.time_point) : epoch := ⟨t⟩

/-- The cast `chr::duration_cast<kep_clock::duration>( duration )` of a `dur<Num, Den>`. -/
def cast_dur (d : dur) : Option kep_clock.duration :=
  (duration_cast d.per period.micro d.count).map kep_clock.duration.mk

/-- The member `epoch::operator+=`: `tp += duration_cast<kep_clock::duration>( duration )`.
The result is the object after the call; the returned reference is `*this`. -/
def operator_plus_assign (self : epoch) (d : dur) : Option epoch :=
  (cast_dur d).bind fun c => (self.tp.add c).map epoch.mk

/-- The member `epoch::operator=`: its body is `return { ep.tp };`, which builds a new
epoch from `ep.tp` and returns it by value; no member of `*this` is written. The result
is the pair of the object after the call and the returned epoch. -/
def operator_assign (self : epoch) (ep : epoch) : epoch × epoch :=
  (self, from_time_point ep.tp)

end epoch

/-! ## Concrete epochs and durations -/

/-- The epoch whose time point holds `c` microseconds. -/
def epoch.of_count (c : I64) : epoch := ⟨⟨⟨c⟩⟩⟩

/-- The duration `chr::days( n )`. -/
def dur.days (n : I64) : dur := ⟨period.days, n⟩

namespace kep_clock

/-- The comparison `operator==` of `std::chrono::time_point`: equality of the tick counts. -/
def time_point.eq (a b : time_point) : Bool :=
  decide (a.time_since_epoch.count.val = b.time_since_epoch.count.val)

/-- The comparison `operator<` of `std::chrono::time_point`: order of the tick counts. -/
def time_point.lt (a b : time_point) : Bool :=
  decide (a.time_since_epoch.count.val < b.time_since_epoch.count.val)

/-- The comparison `operator!=` of `std::chrono::time_point`: `!(lhs == rhs)`. -/
def time_point.ne (a b : time_point) : Bool := !(a.eq b)

/-- The comparison `operator>` of `std::chrono::time_point`: `rhs < lhs`. -/
def time_point.gt (a b : time_point) : Bool := b.lt a

/-- The comparison `operator<=` of `std::chrono::time_point`: `!(rhs < lhs)`. -/
def time_point.le (a b : time_point) : Bool := !(b.lt a)

/-- The comparison `operator>=` of `std::chrono::time_point`: `!(lhs < rhs)`. -/
def time_point.ge (a b : time_point) : Bool := !(a.lt b)

end kep_clock

namespace epoch

/-- Modelled from the spec: `operator>` on epochs is declared a friend in `epoch.hpp` and
defined in `epoch.cpp`, which is missing. It compares the stored time points. -/
def operator_gt (c1 c2 : epoch) : Bool := c1.tp.gt c2.tp

/-- Modelled from the spec: `operator<` on epochs is declared a friend in `epoch.hpp` and
defined in `epoch.cpp`, which is missing. It compares the stored time points. -/
def operator_lt (c1 c2 : epoch) : Bool := c1.tp.lt c2.tp

/-- Modelled from the spec: `operator>=` on epochs is declared a friend in `epoch.hpp` and
defined in `epoch.cpp`, which is missing. It compares the stored time points. -/
def operator_ge (c1 c2 : epoch) : Bool := c1.tp.ge c2.tp

/-- Modelled from the spec: `operator<=` on epochs is declared a friend in `epoch.hpp` and
defined in `epoch.cpp`, which is missing. It compares the stored time points. -/
def operator_le (c1 c2 : epoch) : Bool := c1.tp.le c2.tp

/-- Modelled from the spec: `operator==` on epochs is declared a friend in `epoch.hpp` and
defined in `epoch.cpp`, which is missing. It compares the stored time points. -/
def operator_eq (c1 c2 : epoch) : Bool := c1.tp.eq c2.tp

/-- Modelled from the spec: `operator!=` on epochs is declared a friend in `epoch.hpp` and
defined in `epoch.cpp`, which is missing. It compares the stored time points. -/
def operator_ne (c1 c2 : epoch) : Bool := c1.tp.ne c2.tp

end epoch

/-! ## The Gregorian calendar -/

/-- The leap-year rule of the Gregorian calendar. -/
def is_leap_year (y : Nat) : Bool :=
  y % 4 = 0 ∧ (y % 100 ≠ 0 ∨ y % 400 = 0)

/-- Number of days of the Gregorian year `y`. -/
def days_in_year (y : Nat) : Nat :=
  if is_leap_year y then 366 else 365

/-- Number of days from January 1 of year `a` to January 1 of year `b`. -/
def days_between_years (a b : Nat) : Nat :=
  ((List.range' a (b - a)).map days_in_year).sum

/-! ## The JPL low-precision planets (`jpl_lp.cpp`)

A `double` is represented by a rational number, and a floating-point literal by the decimal
value written in the source. -/

namespace udpla

/-- The array `mercury_el` of `jpl_lp.cpp`. -/
def mercury_el : List ℚ :=
  [0.38709927, 0.20563593, 7.00497902, 252.25032350, 77.45779628, 48.33076593]

/-- The array `mercury_el_dot` of `jpl_lp.cpp`. -/
def mercury_el_dot : List ℚ :=
  [0.00000037, 0.00001906, -0.00594749, 149472.67411175, 0.16047689, -0.12534081]

/-- The array `venus_el` of `jpl_lp.cpp`. -/
def venus_el : List ℚ :=
  [0.72333566, 0.00677672, 3.39467605, 181.97909950, 131.60246718, 76.67984255]

/-- The array `venus_el_dot` of `jpl_lp.cpp`. -/
def venus_el_dot : List ℚ :=
  [0.00000390, -0.00004107, -0.00078890, 58517.81538729, 0.00268329, -0.27769418]

/-- The array `earth_moon_el` of `jpl_lp.cpp`. -/
def earth_moon_el : List ℚ :=
  [1.00000261, 0.01671123, -0.00001531, 100.46457166, 102.93768193, 0.0]

/-- The array `earth_moon_el_dot` of `jpl_lp.cpp`. -/
def earth_moon_el_dot : List ℚ :=
  [0.00000562, -0.00004392, -0.01294668, 35999.37244981, 0.32327364, 0.0]

/-- The array `mars_el` of `jpl_lp.cpp`. -/
def mars_el : List ℚ :=
  [1.52371034, 0.09339410, 1.84969142, -4.55343205, -23.94362959, 49.55953891]

/-- The array `mars_el_dot` of `jpl_lp.cpp`. -/
def mars_el_dot : List ℚ :=
  [0.00001847, 0.00007882, -0.00813131, 19140.30268499, 0.44441088, -0.29257343]

/-- The array `jupiter_el` of `jpl_lp.cpp`. -/
def jupiter_el : List ℚ :=
  [5.20288700, 0.04838624, 1.30439695, 34.39644051, 14.72847983, 100.47390909]

/-- The array `jupiter_el_dot` of `jpl_lp.cpp`. -/
def jupiter_el_dot : List ℚ :=
  [-0.00011607, -0.00013253, -0.00183714, 3034.74612775, 0.21252668, 0.20469106]

/-- The array `saturn_el` of `jpl_lp.cpp`. -/
def saturn_el : List ℚ :=
  [9.53667594, 0.05386179, 2.48599187, 49.95424423, 92.59887831, 113.66242448]

/-- The array `saturn_el_dot` of `jpl_lp.cpp`. -/
def saturn_el_dot : List ℚ :=
  [-0.00125060, -0.00050991, 0.00193609, 1222.49362201, -0.41897216, -0.28867794]

/-- The array `uranus_el` of `jpl_lp.cpp`. -/
def uranus_el : List ℚ :=
  [19.18916464, 0.04725744, 0.77263783, 313.23810451, 170.95427630, 74.01692503]

/-- The array `uranus_el_dot` of `jpl_lp.cpp`. -/
def uranus_el_dot : List ℚ :=
  [-0.00196176, -0.00004397, -0.00242939, 428.48202785, 0.40805281, 0.04240589]

/-- The array `neptune_el` of `jpl_lp.cpp`. -/
def neptune_el : List ℚ :=
  [30.06992276, 0.00859048, 1.77004347, -55.12002969, 44.96476227, 131.78422574]

/-- The array `neptune_el_dot` of `jpl_lp.cpp`. -/
def neptune_el_dot : List ℚ :=
  [0.00026291, 0.00005105, 0.00035372, 218.45945325, -0.32241464, -0.00508664]

/-- The type `std::unordered_map<std::string, int>`, as an association list with distinct
keys. -/
abbrev name_map := List (String × Int)

/-- The function-local static `mapped_planets` of the constructor, as first initialised. -/
def mapped_planets : name_map :=
  [("mercury", 1), ("venus", 2), ("earth", 3), ("mars", 4), ("jupiter", 5), ("saturn", 6),
   ("uranus", 7), ("neptune", 8), ("pluto", 9)]

/-- The member `std::unordered_map::operator[]`: the value mapped to `key`; when `key` is
not in the map, it is first inserted with a value-initialised `int`, which is 0. The result
is the value together with the map after the call. -/
def subscript (m : name_map) (key : String) : Int × name_map :=
  match m.lookup key with
  | some v => (v, m)
  | none => (0, (key, 0) :: m)

/-- The function `boost::algorithm::to_lower` in the classic locale: every upper-case
letter `A` to `Z` is replaced by its lower-case letter, other characters are kept. A
`std::string` is represented by the string of its characters. -/
def to_lower (s : String) : String :=
  String.mk (s.data.map Char.toLower)

/-- The data members of `kep3::udpla::jpl_lp`. -/
structure jpl_lp where
  m_elements : List ℚ
  m_elements_dot : List ℚ
  m_name : String
  m_mu_central_body : ℚ
  m_radius : ℚ
  m_safe_radius : ℚ
  m_mu_self : ℚ
deriving DecidableEq

namespace jpl_lp

/-- The `switch` statement of the constructor on the value `v` found in the map: the
cases 1 to 8 fill the members, the default case throws `std::logic_error`. The constant
`kep3::MU_SUN` of `constants.hpp`, which is missing, is the parameter `MU_SUN`. -/
def ctor_switch (MU_SUN : ℚ) (name : String) (v : Int) : Except String jpl_lp :=
  if v = 1 then
    .ok ⟨mercury_el, mercury_el_dot, name, MU_SUN, 2440000, 1.1, 22032e9⟩
  else if v = 2 then
    .ok ⟨venus_el, venus_el_dot, name, MU_SUN, 6052000, 1.1, 324859e9⟩
  else if v = 3 then
    .ok ⟨earth_moon_el, earth_moon_el_dot, name, MU_SUN, 6378000, 1.1, 398600.4418e9⟩
  else if v = 4 then
    .ok ⟨mars_el, mars_el_dot, name, MU_SUN, 3397000, 1.1, 42828e9⟩
  else if v = 5 then
    .ok ⟨jupiter_el, jupiter_el_dot, name, MU_SUN, 71492000, 9, 126686534e9⟩
  else if v = 6 then
    .ok ⟨saturn_el, saturn_el_dot, name, MU_SUN, 60330000, 1.1, 37931187e9⟩
  else if v = 7 then
    .ok ⟨uranus_el, uranus_el_dot, name, MU_SUN, 25362000, 1.1, 5793939e9⟩
  else if v = 8 then
    .ok ⟨neptune_el, neptune_el_dot, name, MU_SUN, 24622000, 1.1, 6836529e9⟩
  else
    .error "unknown planet name: "

/-- The constructor `jpl_lp::jpl_lp( const std::string &name )`. The static map is passed
in and returned. The result is the constructed object, or the message of the
`std::logic_error` thrown, together with the static map after the call. -/
def ctor (MU_SUN : ℚ) (name : String) (table : name_map) :
    Except String jpl_lp × name_map :=
  let lower_case_name := to_lower name
  let (v, table1) := subscript table lower_case_name
  (ctor_switch MU_SUN name v, table1)

/-- The member `jpl_lp::get_radius`. -/
def get_radius (p : jpl_lp) : ℚ := p.m_radius

/-- The member `jpl_lp::get_safe_radius`. -/
def get_safe_radius (p : jpl_lp) : ℚ := p.m_safe_radius

/-- The member `jpl_lp::get_name`. -/
def get_name (p : jpl_lp) : String := p.m_name

/-- The member `jpl_lp::get_mu_self`. -/
def get_mu_self (p : jpl_lp) : ℚ := p.m_mu_self

/-- The member `jpl_lp::get_mu_central_body`. -/
def get_mu_central_body (p : jpl_lp) : ℚ := p.m_mu_central_body

end jpl_lp

/-- The static map after the constructor has been called, in this order, with each name of
`history`, starting from the freshly initialised map. -/
def table_after (MU_SUN : ℚ) (history : List String) : name_map :=
  history.foldl (fun t n => (jpl_lp.ctor MU_SUN n t).2) mapped_planets

/-- The eight names of solar system planets for which the constructor has a case. -/
def planet_names : List String :=
  ["mercury", "venus", "earth", "mars", "jupiter", "saturn", "uranus", "neptune"]

/-- Invariant of the static map: every key either is mapped as in the initial map, or is
absent from the initial map and mapped to 0. -/
def table_inv (t : name_map) : Prop :=
  ∀ k : String, t.lookup k = mapped_planets.lookup k ∨
    (mapped_planets.lookup k = none ∧ t.lookup k = some 0)

/-- A value for the constant `kep3::MU_SUN` where a concrete one is needed: the
gravitational parameter of the Sun, 1.32712440018e20 in SI units. Nothing proved below
depends on this value. -/
def MU_SUN_SI : ℚ := 132712440018000000000

end udpla

/-! ## kep_clock::from_time_t -/

namespace kep_clock

/-- The function `kep_clock::from_time_t`:
`time_point_cast<duration>( time_point( chr::seconds( t ) - y2k_offset ) )`. The
difference is taken in seconds, converted to the duration of the clock when the time
point is built, and the final cast is between equal periods. -/
def from_time_t (t : I64) : Option time_point :=
  (checked (t.val - y2k_offset.val)).bind fun s =>
    (of_seconds s).bind fun d =>
      (duration_cast period.micro period.micro d.count).map fun c => ⟨⟨c⟩⟩

end kep_clock

/-! ## The constructor from calendar fields and the difference of epochs -/

/-- A 32-bit signed integer: `int`. -/
structure I32 where
  val : Int
  lo : -2147483648 ≤ val
  hi : val ≤ 2147483647
deriving DecidableEq

/-- The conversion of an `int` to a 64-bit representation. -/
def I32.toI64 (n : I32) : I64 :=
  ⟨n.val, le_trans (by decide) n.lo, le_trans n.hi (by decide)⟩

/-- The `int` zero, the default of the trailing arguments of the constructor. -/
def I32.zero : I32 := ⟨0, by decide, by decide⟩

/-- The period `std::ratio<31556952>` of `std::chrono::years`. -/
def period.years : period := ⟨31556952, 1⟩

/-- The period `std::ratio<2629746>` of `std::chrono::months`. -/
def period.months : period := ⟨2629746, 1⟩

/-- The period `std::ratio<3600>` of `std::chrono::hours`. -/
def period.hours : period := ⟨3600, 1⟩

/-- The period `std::ratio<60>` of `std::chrono::minutes`. -/
def period.minutes : period := ⟨60, 1⟩

/-- The period `std::ratio<1, 1000>` of `std::chrono::milliseconds`. -/
def period.milli : period := ⟨1, 1000⟩

namespace epoch

/-- One step of the sum in `make_tp`: the time point `t` advanced by `n` ticks of
period `p`, converted to the duration of the clock. -/
def add_field (p : period) (n : I32) (t : kep_clock.time_point) :
    Option kep_clock.time_point :=
  (cast_dur ⟨p, n.toI64⟩).bind fun c => t.add c

/-- Modelled from the spec: the function `make_tp( yr, mon, day, hr, min, s, ms, us )` is
declared in `epoch.hpp` and defined in `epoch.cpp`, which is missing. The constructor
counts from the reference epoch: every field is an offset from the zero of the clock, in
the `std::chrono` unit of its name, and the offsets are added in the order of the
arguments. -/
def make_tp (yr mon day hr min s ms us : I32) : Option kep_clock.time_point :=
  (((((((add_field period.years yr kep_clock.time_point.zero).bind
    (add_field period.months mon)).bind
    (add_field period.days day)).bind
    (add_field period.hours hr)).bind
    (add_field period.minutes min)).bind
    (add_field period.seconds s)).bind
    (add_field period.milli ms)).bind
    (add_field period.micro us)

/-- Modelled from the spec: the constructor `epoch( yr, mon, day, hr, min, s, ms, us )` is
declared in `epoch.hpp` and defined in `epoch.cpp`, which is missing. It stores the time
point built by `make_tp`. -/
def from_fields (yr mon day hr min s ms us : I32) : Option epoch :=
  (make_tp yr mon day hr min s ms us).map epoch.mk

/-- Modelled from the spec: the value of `epoch( 0. )`, built by the constructor from a
Julian date of `epoch.cpp`, which is missing: zero days after the MJD2000 reference, the
zero of the clock. -/
def epoch_zero : epoch := ⟨kep_clock.time_point.zero⟩

end epoch

/-! ## The anomaly converters and the Lambert solver

The converters and the solver belong to the core of the library, which is missing; only
their docstrings are present. They are modelled from the specification. A `double` is a
rational number; the floating-point iterations are parameters of the model. -/

/-- Modelled from the spec: the error taxonomy of section 7. A precondition violation is a
domain error that identifies the argument at fault; non-convergence of an iteration is
reported distinctly. -/
inductive kep_error where
  | domain_error (argument : String)
  | convergence_error
deriving DecidableEq

/-- Modelled from the spec: the scalar converter from mean to eccentric anomaly
(`mean_to_eccentric`, `m2e`) of section 4.2. Its precondition is an eccentricity in
[0,1); a violation is reported before iterating, as a domain error naming the
eccentricity. The iteration of the root-finding kernel of section 4.1 is the parameter
`kernel`. -/
def m2e (kernel : ℚ → ℚ → Except kep_error ℚ) (M ecc : ℚ) : Except kep_error ℚ :=
  if 0 ≤ ecc ∧ ecc < 1 then kernel M ecc else .error (.domain_error "ecc")

/-- Modelled from the spec: the eccentricity argument of a vectorized converter
(section 6), either a single value that is broadcast or a sequence. -/
inductive ecc_arg where
  | scalar (ecc : ℚ)
  | sequence (eccs : List ℚ)
deriving DecidableEq

/-- Modelled from the spec: the pairing of `n` angles with the eccentricity argument
(section 6): a scalar is broadcast, a sequence is taken element for element, and a
sequence of another length is a domain error. -/
def pair_eccs (n : Nat) : ecc_arg → Except kep_error (List ℚ)
  | .scalar ecc => .ok (List.replicate n ecc)
  | .sequence eccs => if eccs.length = n then .ok eccs else .error (.domain_error "eccs")

/-- Modelled from the spec: the loop of a vectorized entry point, which applies the scalar
operation `f` to each pair of an angle and an eccentricity, in order. The policy on
errors is to fail the whole batch on the first invalid element. -/
def apply_elementwise (f : ℚ → ℚ → Except kep_error ℚ) :
    List ℚ → List ℚ → Except kep_error (List ℚ)
  | M :: Ms, ecc :: eccs =>
    match f M ecc with
    | .error err => .error err
    | .ok E =>
      match apply_elementwise f Ms eccs with
      | .error err => .error err
      | .ok Es => .ok (E :: Es)
  | _, _ => .ok []

/-- Modelled from the spec: the vectorized converter `m2e_v` (sections 4.2 and 6), the
scalar converter applied elementwise over the sequence of mean anomalies. -/
def m2e_v (kernel : ℚ → ℚ → Except kep_error ℚ) (Ms : List ℚ) (eccs : ecc_arg) :
    Except kep_error (List ℚ) :=
  match pair_eccs Ms.length eccs with
  | .error err => .error err
  | .ok es => apply_elementwise (m2e kernel) Ms es

/-- A Cartesian vector with three components. -/
abbrev vec3 := ℚ × ℚ × ℚ

/-- The cross product of two vectors. -/
def cross (a b : vec3) : vec3 :=
  (a.2.1 * b.2.2 - a.2.2 * b.2.1, a.2.2 * b.1 - a.1 * b.2.2, a.1 * b.2.1 - a.2.1 * b.1)

/-- Modelled from the spec: the branch of a transfer solution (section 6). -/
inductive lambert_branch where
  | left
  | right
deriving DecidableEq

/-- Modelled from the spec: one transfer solution of the Lambert solver (section 6):
the two velocities, the revolution count, the branch and the non-dimensional parameter. -/
structure lambert_solution where
  v0 : vec3
  v1 : vec3
  revolution : Nat
  branch : lambert_branch
  x : ℚ
deriving DecidableEq

/-- Modelled from the spec: the inputs of the Lambert solver other than the maximum
revolution count (section 6). -/
structure lambert_input where
  r0 : vec3
  r1 : vec3
  tof : ℚ
  mu : ℚ
  retrograde : Bool
deriving DecidableEq

/-- Modelled from the spec: the numerical parts of the Lambert solver (section 4.3), which
are floating-point iterations and are parameters of the model. The root search for a
revolution count on a branch gives the velocities and the parameter `x` of the root, or
nothing when the iteration reaches its cap without converging (section 4.1); the other
part is the minimum time of flight of a revolution count. -/
structure lambert_kernel where
  root : lambert_input → Nat → lambert_branch → Option (vec3 × vec3 × ℚ)
  min_tof : lambert_input → Nat → ℚ

/-- Modelled from the spec: the solution built from the root search of the kernel for
revolution count `N` on branch `b`; a search that does not converge is reported as the
error of numerical non-convergence (sections 4.1 and 7) and never as a value. -/
def lambert_kernel.solution (k : lambert_kernel) (inp : lambert_input) (N : Nat)
    (b : lambert_branch) : Except kep_error lambert_solution :=
  match k.root inp N b with
  | none => .error .convergence_error
  | some r => .ok ⟨r.1, r.2.1, N, b, r.2.2⟩

/-- Modelled from the spec: the solutions of revolution count `N` with `1 ≤ N`
(section 4.3, branch enumeration): none, without any root search, when the requested time
of flight is smaller than the minimum time of flight of `N`, else the two branches, left
before right. A root search that does not converge makes the enumeration fail. -/
def lambert_kernel.revolution_solutions (k : lambert_kernel) (inp : lambert_input)
    (N : Nat) : Except kep_error (List lambert_solution) :=
  if inp.tof < k.min_tof inp N then .ok []
  else
    match k.solution inp N .left with
    | .error err => .error err
    | .ok sl =>
      match k.solution inp N .right with
      | .error err => .error err
      | .ok sr => .ok [sl, sr]

/-- Modelled from the spec: the solutions of the revolution counts 1 to `n`, ordered by
increasing revolution count (section 4.3, output ordering), or the error of the first
root search that does not converge. -/
def lambert_kernel.multi_revolution (k : lambert_kernel) (inp : lambert_input) :
    Nat → Except kep_error (List lambert_solution)
  | 0 => .ok []
  | n + 1 =>
    match k.multi_revolution inp n with
    | .error err => .error err
    | .ok l =>
      match k.revolution_solutions inp (n + 1) with
      | .error err => .error err
      | .ok l1 => .ok (l ++ l1)

/-- Modelled from the spec: the Lambert solver `solve` (sections 4.3, 6 and 7). A time of
flight or gravitational parameter that is not positive, and collinear position vectors,
are domain errors reported before any iteration. Otherwise the result is the single
solution of revolution count 0 followed by the solutions of the counts 1 to
`max_revolutions`, or the error of numerical non-convergence when a root search does not
converge. The specification names no branch for the solution of revolution count 0; it
carries the left one here. -/
def lambert_solve (k : lambert_kernel) (inp : lambert_input) (max_revolutions : Nat) :
    Except kep_error (List lambert_solution) :=
  if inp.tof ≤ 0 then .error (.domain_error "tof")
  else if inp.mu ≤ 0 then .error (.domain_error "mu")
  else if cross inp.r0 inp.r1 = (0, 0, 0) then .error (.domain_error "r0, r1")
  else
    match k.solution inp 0 .left with
    | .error err => .error err
    | .ok s0 =>
      match k.multi_revolution inp max_revolutions with
      | .error err => .error err
      | .ok l => .ok (s0 :: l)

/-! ## The Python constructors of the keplerian udpla (`expose_udplas.cpp`) -/

namespace pykep

/-- A Python value passed to, or declared as default of, an argument of the constructors
of the keplerian udpla. -/
inductive py_value where
  | str (s : String)
  | float (x : ℚ)
  | array (xs : List ℚ)
  | matrix (rows : List (List ℚ))
  | epoch (e : kep3.epoch)
  | KEP_F
deriving DecidableEq

/-- An argument declared with `py::arg( name )`, with its default when one is given by
`py::arg( name ) = value`. -/
structure py_arg where
  name : String
  default_value : Option py_value
deriving DecidableEq

/-- The arguments of the first constructor registered by `expose_all_udplas`, from the
orbital elements. -/
def keplerian_init_elem : List py_arg :=
  [⟨"ep", none⟩, ⟨"elem", none⟩, ⟨"mu_central_body", none⟩, ⟨"name", some (.str "unknown")⟩,
   ⟨"added_params", some (.array [-1, -1, -1])⟩, ⟨"elem_type", some .KEP_F⟩]

/-- The arguments of the second constructor registered by `expose_all_udplas`, from
position and velocity. -/
def keplerian_init_posvel : List py_arg :=
  [⟨"ep", none⟩, ⟨"posvel", none⟩, ⟨"mu_central_body", none⟩, ⟨"name", some (.str "unknown")⟩,
   ⟨"added_params", some (.array [-1, -1, -1])⟩]

/-- A Python call of a constructor: the positional arguments and the keyword arguments. -/
structure py_call where
  positional : List py_value
  keywords : List (String × py_value)
deriving DecidableEq

/-- The value pybind11 passes for the declared argument `a` of index `i`: the positional
argument of that index, else the keyword argument of that name, else the declared
default. None (the call is rejected) when the argument is given twice, or is required
and missing. -/
def bind_arg (call : py_call) (i : Nat) (a : py_arg) : Option py_value :=
  match call.positional.get? i, call.keywords.lookup a.name with
  | some _, some _ => none
  | some v, none => some v
  | none, some v => some v
  | none, none => a.default_value

/-- The values bound to the declared arguments `args`, the first of which has index `i`. -/
def bind_from (call : py_call) : Nat → List py_arg → Option (List py_value)
  | _, [] => some []
  | i, a :: rest =>
    match bind_arg call i a with
    | none => none
    | some v =>
      match bind_from call (i + 1) rest with
      | none => none
      | some vs => some (v :: vs)

/-- The values pybind11 passes to the C++ constructor, in the order of the declared
arguments. None (the call is rejected) when there are more positional arguments than
declared ones, when a keyword is not the name of a declared argument, or when an
argument cannot be bound. -/
def bind_args (args : List py_arg) (call : py_call) : Option (List py_value) :=
  if args.length < call.positional.length then none
  else if call.keywords.any (fun kv => !(args.any fun a => a.name == kv.1)) then none
  else bind_from call 0 args

/-- The name passed to the C++ constructor by a call: the value bound to the fourth
declared argument, `name`. -/
def bound_name (args : List py_arg) (call : py_call) : Option py_value :=
  (bind_args args call).bind fun vs => vs.get? 3

/-- The default of `name` printed in the signatures of the two docstrings of the
constructors (`docstrings.cpp`). -/
def docstring_default_name : String := "unkown"

/-- The call of the docstring example of the constructor from elements, with keyword
arguments and the name left out. -/
def example_call_elem : py_call :=
  ⟨[], [("ep", .epoch epoch.epoch_zero), ("elem", .array [1, 0, 0, 0, 0, 0]),
    ("mu_central_body", .float 1)]⟩

/-- The call of the docstring example of the constructor from position and velocity, with
positional arguments and the name left out. -/
def example_call_posvel : py_call :=
  ⟨[.epoch epoch.epoch_zero, .matrix [[1, 0, 0], [0, 1, 0]], .float 1], []⟩

end pykep

/-! ## Concrete inputs for evaluations -/

/-- A root-finding kernel for concrete evaluations: it returns the mean anomaly. -/
def example_anomaly_kernel : ℚ → ℚ → Except kep_error ℚ := fun M _ => .ok M

/-- One hundred mean anomalies for concrete evaluations. -/
def example_anomalies : List ℚ :=
  List.map (fun i : Nat => (i : ℚ) / 100) (List.range 100)

end kep3

/-! ## Lemmas on truncating division -/

namespace kep3

end kep3

/-! ## Lemmas on checked arithmetic -/

namespace kep3

theorem checked_eq_some {x : Int} {r : I64} : checked x = some r ↔ r.val = x := by
  unfold checked
  constructor
  · intro h
    split at h
    · cases h; rfl
    · cases h
  · intro h
    subst h
    rw [dif_pos ⟨r.lo, r.hi⟩]

theorem checked_val (r : I64) : checked r.val = some r := checked_eq_some.mpr rfl

theorem I64_ext_val {a b : I64} (h : a.val = b.val) : a = b := by
  cases a; cases b; cases h; rfl

namespace kep_clock

theorem duration_add_eq_some {a b r : duration} :
    a.add b = some r ↔ r.count.val = a.count.val + b.count.val := by
  unfold duration.add
  rw [Option.map_eq_some']
  constructor
  · rintro ⟨x, hx, rfl⟩
    exact checked_eq_some.mp hx
  · intro h
    exact ⟨r.count, checked_eq_some.mpr h, rfl⟩

theorem time_point_add_eq_some {t r : time_point} {d : duration} :
    t.add d = some r ↔
      r.time_since_epoch.count.val = t.time_since_epoch.count.val + d.count.val := by
  unfold time_point.add
  rw [Option.map_eq_some']
  constructor
  · rintro ⟨x, hx, rfl⟩
    exact duration_add_eq_some.mp hx
  · intro h
    exact ⟨r.time_since_epoch, duration_add_eq_some.mpr h, rfl⟩

theorem time_point_ext_val {a b : time_point}
    (h : a.time_since_epoch.count.val = b.time_since_epoch.count.val) : a = b := by
  cases a with
  | mk da =>
    cases b with
    | mk db =>
      cases da; cases db
      simp only at h
      rw [I64_ext_val h]

end kep_clock

namespace epoch

theorem epoch_ext_val {a b : epoch}
    (h : a.tp.time_since_epoch.count.val = b.tp.time_since_epoch.count.val) : a = b := by
  cases a; cases b
  simp only at h
  rw [kep_clock.time_point_ext_val h]

end epoch
end kep3

/-! ## Lemmas on the static map of planet names -/

namespace kep3

namespace udpla

theorem ctor_snd (MU : ℚ) (name : String) (t : name_map) :
    (jpl_lp.ctor MU name t).2 = (subscript t (to_lower name)).2 := rfl

theorem ctor_fst (MU : ℚ) (name : String) (t : name_map) :
    (jpl_lp.ctor MU name t).1 = jpl_lp.ctor_switch MU name (subscript t (to_lower name)).1 := rfl

theorem lookup_cons_ite (a k : String) (b : Int) (es : name_map) :
    List.lookup a ((k, b) :: es) = if a = k then some b else List.lookup a es := by
  rw [List.lookup_cons]
  by_cases h : a = k
  · simp [h]
  · have hb : (a == k) = false := by simpa using h
    simp [h, hb]

theorem lookup_mapped_planets (k : String) :
    (mapped_planets.lookup k).getD 0 =
      if k = "mercury" then 1 else if k = "venus" then 2 else if k = "earth" then 3
      else if k = "mars" then 4 else if k = "jupiter" then 5 else if k = "saturn" then 6
      else if k = "uranus" then 7 else if k = "neptune" then 8 else if k = "pluto" then 9
      else 0 := by
  unfold mapped_planets
  simp only [lookup_cons_ite, List.lookup_nil]
  split_ifs <;> rfl

theorem subscript_fst (t : name_map) (k : String) :
    (subscript t k).1 = (t.lookup k).getD 0 := by
  unfold subscript
  cases h : t.lookup k <;> rfl

theorem lookup_subscript (t : name_map) (k a : String) :
    (subscript t k).2.lookup a
      = if a = k ∧ t.lookup k = none then some 0 else t.lookup a := by
  unfold subscript
  cases h : t.lookup k with
  | some v => simp
  | none =>
    simp only [lookup_cons_ite, and_true]

theorem table_inv_subscript (t : name_map) (k : String) (h : table_inv t) :
    table_inv (subscript t k).2 := by
  intro a
  rw [lookup_subscript]
  by_cases hc : a = k ∧ t.lookup k = none
  · rw [if_pos hc]
    obtain ⟨rfl, hn⟩ := hc
    rcases h a with h1 | h1
    · right
      exact ⟨by rw [← h1, hn], rfl⟩
    · rw [hn] at h1
      cases h1.2
  · rw [if_neg hc]
    exact h a

theorem table_inv_foldl (MU : ℚ) (history : List String) (t : name_map) (h : table_inv t) :
    table_inv (history.foldl (fun t n => (jpl_lp.ctor MU n t).2) t) := by
  induction history generalizing t with
  | nil => exact h
  | cons n ns ih =>
    rw [List.foldl_cons]
    apply ih
    rw [ctor_snd]
    exact table_inv_subscript t _ h

theorem table_inv_table_after (MU : ℚ) (history : List String) :
    table_inv (table_after MU history) :=
  table_inv_foldl MU history mapped_planets (fun _ => Or.inl rfl)

theorem subscript_fst_of_inv (t : name_map) (k : String) (h : table_inv t) :
    (subscript t k).1 = (mapped_planets.lookup k).getD 0 := by
  rw [subscript_fst]
  rcases h k with h1 | h1
  · rw [h1]
  · rw [h1.1, h1.2]
    rfl

theorem ctor_switch_error_iff (MU : ℚ) (name : String) (v : Int) :
    jpl_lp.ctor_switch MU name v = .error "unknown planet name: " ↔
      ¬ (v = 1 ∨ v = 2 ∨ v = 3 ∨ v = 4 ∨ v = 5 ∨ v = 6 ∨ v = 7 ∨ v = 8) := by
  unfold jpl_lp.ctor_switch
  split_ifs <;> simp_all

theorem ctor_switch_ok_iff (MU : ℚ) (name : String) (v : Int) :
    (∃ p, jpl_lp.ctor_switch MU name v = .ok p) ↔
      (v = 1 ∨ v = 2 ∨ v = 3 ∨ v = 4 ∨ v = 5 ∨ v = 6 ∨ v = 7 ∨ v = 8) := by
  unfold jpl_lp.ctor_switch
  split_ifs <;> simp_all

theorem planet_index_iff (k : String) :
    ((mapped_planets.lookup k).getD 0 = 1 ∨ (mapped_planets.lookup k).getD 0 = 2 ∨
      (mapped_planets.lookup k).getD 0 = 3 ∨ (mapped_planets.lookup k).getD 0 = 4 ∨
      (mapped_planets.lookup k).getD 0 = 5 ∨ (mapped_planets.lookup k).getD 0 = 6 ∨
      (mapped_planets.lookup k).getD 0 = 7 ∨ (mapped_planets.lookup k).getD 0 = 8)
      ↔ k ∈ planet_names := by
  rw [lookup_mapped_planets]
  unfold planet_names
  simp only [List.mem_cons, List.mem_singleton, List.mem_nil_iff, or_false]
  split_ifs <;> simp_all

end udpla

end kep3

/-! ## The epoch operators -/

namespace kep3

/-- C1 (defect of the code): the statement `a = b` leaves the time point stored in `a` as it
was. For every `a` and `b` the object `a` after `a.operator=( b )` is `a` itself, the
copy of `b` being only the returned temporary; with `a` at 0 and `b` at 1 microsecond, `a`
is still at 0 afterwards and `a == b` is false. -/
theorem C1_operator_assign_leaves_target :
    (∀ a b : epoch, (a.operator_assign b).1 = a ∧ (a.operator_assign b).2.tp = b.tp) ∧
    (let a := epoch.of_count ⟨0, by decide, by decide⟩
     let b := epoch.of_count ⟨1, by decide, by decide⟩
     (a.operator_assign b).1 = a ∧ (a.operator_assign b).1.tp ≠ b.tp ∧
       epoch.operator_eq (a.operator_assign b).1 b = false) := by
  refine ⟨fun a b => ⟨rfl, rfl⟩, ?_⟩
  decide

end kep3

/-! ## The JPL low-precision planets -/

namespace kep3

namespace udpla

/-- C5: `jpl_lp( name )` throws `std::logic_error` exactly when the lower-cased name is not
one of the eight planet names, and constructs a planet for each of those eight, whatever
constructor calls came before. In particular the empty string and `pluto`, a key of the
map, are rejected. -/
theorem C5_jpl_lp_throws_iff (MU_SUN : ℚ) (history : List String) (name : String) :
    ((jpl_lp.ctor MU_SUN name (table_after MU_SUN history)).1
        = .error "unknown planet name: " ↔ to_lower name ∉ planet_names) ∧
    ((∃ p, (jpl_lp.ctor MU_SUN name (table_after MU_SUN history)).1 = .ok p)
        ↔ to_lower name ∈ planet_names) ∧
    (jpl_lp.ctor MU_SUN "" (table_after MU_SUN history)).1
        = .error "unknown planet name: " ∧
    (jpl_lp.ctor MU_SUN "pluto" (table_after MU_SUN history)).1
        = .error "unknown planet name: " := by
  have key : ∀ n : String,
      ((jpl_lp.ctor MU_SUN n (table_after MU_SUN history)).1
          = .error "unknown planet name: " ↔ to_lower n ∉ planet_names) := by
    intro n
    rw [ctor_fst, subscript_fst_of_inv _ _ (table_inv_table_after MU_SUN history),
      ctor_switch_error_iff, planet_index_iff]
  refine ⟨key name, ?_, (key "").mpr (by decide), (key "pluto").mpr (by decide)⟩
  rw [ctor_fst, subscript_fst_of_inv _ _ (table_inv_table_after MU_SUN history),
    ctor_switch_ok_iff, planet_index_iff]

/-- C6 (defect of the code): the safe radius stored by the constructor is the factor 1.1
(9 for jupiter), not a distance. For `earth` the constructed planet has
`get_safe_radius() = 1.1` and `get_radius() = 6378000`, so the safe radius is below the
radius; the same holds for every planet the constructor builds. -/
theorem C6_safe_radius_below_radius :
    (∃ p, (jpl_lp.ctor MU_SUN_SI "earth" mapped_planets).1 = .ok p ∧
      p.get_safe_radius = 1.1 ∧ p.get_radius = 6378000 ∧
      ¬ (p.get_safe_radius ≥ p.get_radius)) ∧
    (∀ (MU_SUN : ℚ) (name : String) (v : Int) (p : jpl_lp),
      jpl_lp.ctor_switch MU_SUN name v = .ok p → p.get_safe_radius < p.get_radius) := by
  constructor
  · refine ⟨_, rfl, ?_⟩
    simp only [jpl_lp.get_safe_radius, jpl_lp.get_radius]
    norm_num
  · intro MU name v p h
    unfold jpl_lp.ctor_switch at h
    split_ifs at h <;> cases h <;>
      (simp only [jpl_lp.get_safe_radius, jpl_lp.get_radius]; norm_num)

/-- C7, counterexample: constructing with the unknown name `vulcan` on the fresh map throws
and changes the set of keys: `vulcan` was absent and is mapped to 0 afterwards. -/
theorem C7_table_changed :
    (jpl_lp.ctor MU_SUN_SI "vulcan" mapped_planets).1
      = .error "unknown planet name: " ∧
    mapped_planets.lookup "vulcan" = none ∧
    (jpl_lp.ctor MU_SUN_SI "vulcan" mapped_planets).2.lookup "vulcan"
      = some 0 ∧
    (jpl_lp.ctor MU_SUN_SI "vulcan" mapped_planets).2 ≠ mapped_planets := by
  refine ⟨rfl, by decide, by decide, by decide⟩

/-- C7, amended: a constructor call never changes or removes an entry of the map. The
only change it can make is to add the lower-cased name, mapped to 0, when that name is
not yet a key; when it is a key the map is left as it was. -/
theorem C7_table_only_grows (MU_SUN : ℚ) (name : String) (table : name_map) :
    (∀ k : String, (jpl_lp.ctor MU_SUN name table).2.lookup k
      = if k = to_lower name ∧ table.lookup (to_lower name) = none then some 0
        else table.lookup k) ∧
    (table.lookup (to_lower name) ≠ none → (jpl_lp.ctor MU_SUN name table).2 = table) := by
  refine ⟨fun k => ?_, fun h => ?_⟩
  · rw [ctor_snd, lookup_subscript]
  · rw [ctor_snd]
    unfold subscript
    cases hl : table.lookup (to_lower name) with
    | none => exact absurd hl h
    | some v => rfl

/-- C7, amended, on the fresh map: the known name `Earth` leaves it unchanged. -/
theorem C7_table_only_grows_witness :
    (mapped_planets.lookup (to_lower "Earth") ≠ none) ∧
    (jpl_lp.ctor MU_SUN_SI "Earth" mapped_planets).2 = mapped_planets :=
  ⟨by decide,
   (C7_table_only_grows MU_SUN_SI "Earth" mapped_planets).2 (by decide)⟩

end udpla

end kep3

/-! ## The clock and the comparison operators -/

namespace kep3

/-- C8: the zero time point of `kep_clock` is the MJD2000 reference instant.
`to_time_t( time_point{} )` is 946684800, which is 10957 days of 86400 seconds, and 10957
is the number of days from 1970-01-01 to 2000-01-01 in the Gregorian calendar. -/
theorem C8_zero_time_point_is_y2k :
    kep_clock.to_time_t kep_clock.time_point.zero
      = some ⟨946684800, by decide, by decide⟩ ∧
    (946684800 : Int) = 10957 * 86400 ∧
    days_between_years 1970 2000 = 10957 := by
  decide

/-- C9 (defect of the code): `ref_epoch` is `time_point{} + y2k_offset`, that is
946684800000000 microseconds after the zero of the clock, which `to_time_t` already places
at 2000-01-01. So `to_time_t( ref_epoch )` is 1893369600, twice 946684800, an instant
21914 days after 1970-01-01 (2029-12-31T00:00:00), and not 946684800. -/
theorem C9_ref_epoch_to_time_t :
    kep_clock.ref_epoch
      = some ⟨⟨⟨946684800000000, by decide, by decide⟩⟩⟩ ∧
    kep_clock.ref_epoch.bind kep_clock.to_time_t
      = some ⟨1893369600, by decide, by decide⟩ ∧
    kep_clock.ref_epoch.bind kep_clock.to_time_t
      ≠ some ⟨946684800, by decide, by decide⟩ ∧
    (1893369600 : Int) = 2 * 946684800 ∧
    (1893369600 : Int) = (days_between_years 1970 2030 - 1) * 86400 := by
  decide

/-- C10: the six comparison operators on epochs form one consistent total order on the
stored time points. Exactly one of `a < b`, `a == b`, `a > b` holds; `a >= b` holds iff
`a < b` does not, `a <= b` iff `a > b` does not, `a != b` iff `a == b` does not; and
`a == b` holds iff the stored time points are equal, `a < b` iff the tick count of `a` is
below that of `b`. -/
theorem C10_comparisons_total_order (a b : epoch) :
    ((a.operator_lt b = true ∧ a.operator_eq b = false ∧ a.operator_gt b = false) ∨
     (a.operator_lt b = false ∧ a.operator_eq b = true ∧ a.operator_gt b = false) ∨
     (a.operator_lt b = false ∧ a.operator_eq b = false ∧ a.operator_gt b = true)) ∧
    (a.operator_ge b = true ↔ a.operator_lt b = false) ∧
    (a.operator_le b = true ↔ a.operator_gt b = false) ∧
    (a.operator_ne b = true ↔ a.operator_eq b = false) ∧
    (a.operator_eq b = true ↔ a.tp = b.tp) ∧
    (a.operator_lt b = true ↔
      a.tp.time_since_epoch.count.val < b.tp.time_since_epoch.count.val) := by
  refine ⟨?_, ?_, ?_, ?_, ?_, ?_⟩
  · simp only [epoch.operator_lt, epoch.operator_eq, epoch.operator_gt,
      kep_clock.time_point.lt, kep_clock.time_point.eq, kep_clock.time_point.gt,
      decide_eq_true_eq, decide_eq_false_iff_not]
    rcases lt_trichotomy a.tp.time_since_epoch.count.val b.tp.time_since_epoch.count.val
      with h | h | h
    · left
      omega
    · right; left
      omega
    · right; right
      omega
  · simp [epoch.operator_ge, epoch.operator_lt, kep_clock.time_point.ge]
  · simp [epoch.operator_le, epoch.operator_gt, kep_clock.time_point.le,
      kep_clock.time_point.gt]
  · simp [epoch.operator_ne, epoch.operator_eq, kep_clock.time_point.ne]
  · simp only [epoch.operator_eq, kep_clock.time_point.eq, decide_eq_true_eq]
    constructor
    · exact kep_clock.time_point_ext_val
    · intro h
      rw [h]
  · simp only [epoch.operator_lt, kep_clock.time_point.lt, decide_eq_true_eq]

end kep3

/-! ## Lemmas on the constructor from calendar fields -/

namespace kep3

namespace kep_clock

theorem time_point_add_zero (t : time_point) :
    t.add ⟨⟨0, by decide, by decide⟩⟩ = some t :=
  time_point_add_eq_some.mpr (by simp)

end kep_clock

namespace epoch

theorem add_field_zero_of_cast (p : period) (t : kep_clock.time_point)
    (h : cast_dur ⟨p, I32.zero.toI64⟩ = some ⟨⟨0, by decide, by decide⟩⟩) :
    add_field p I32.zero t = some t := by
  unfold add_field
  rw [h]
  exact kep_clock.time_point_add_zero t

theorem bind_add_field_zero (p : period) (o : Option kep_clock.time_point)
    (h : cast_dur ⟨p, I32.zero.toI64⟩ = some ⟨⟨0, by decide, by decide⟩⟩) :
    o.bind (add_field p I32.zero) = o := by
  cases o with
  | none => rfl
  | some t => exact add_field_zero_of_cast p t h

theorem make_tp_days (n : I32) :
    make_tp I32.zero I32.zero n I32.zero I32.zero I32.zero I32.zero I32.zero
      = add_field period.days n kep_clock.time_point.zero := by
  unfold make_tp
  rw [bind_add_field_zero period.micro _ (by decide),
    bind_add_field_zero period.milli _ (by decide),
    bind_add_field_zero period.seconds _ (by decide),
    bind_add_field_zero period.minutes _ (by decide),
    bind_add_field_zero period.hours _ (by decide),
    add_field_zero_of_cast period.years _ (by decide)]
  rw [Option.some_bind, add_field_zero_of_cast period.months _ (by decide), Option.some_bind]

theorem cast_dur_days (n : I64) :
    cast_dur (dur.days n) = (checked (n.val * 86400000000)).map kep_clock.duration.mk := by
  have h1 : CF_num period.days period.micro = 86400000000 := by decide
  have h2 : CF_den period.days period.micro = 1 := by decide
  unfold cast_dur duration_cast
  simp only [dur.days, h1, h2]
  rw [if_neg (by decide), if_neg (by decide), if_pos trivial]
  rfl

end epoch

/-- C11: the constructor from calendar fields counts days from the reference epoch. For
every `int` `n`, `epoch( 0, 0, n )` and `epoch( 0. )` advanced by `n` days with
`operator+=` are the same: both are the epoch at `n * 86400000000` microseconds when that
count fits in 64 bits, which holds for every `n` of at most 106751991 in absolute value,
and neither is defined otherwise. -/
theorem C11_from_fields_counts_days (n : I32) :
    epoch.from_fields I32.zero I32.zero n I32.zero I32.zero I32.zero I32.zero I32.zero
      = epoch.epoch_zero.operator_plus_assign (dur.days n.toI64) ∧
    epoch.from_fields I32.zero I32.zero n I32.zero I32.zero I32.zero I32.zero I32.zero
      = (checked (n.val * 86400000000)).map epoch.of_count ∧
    (-106751991 ≤ n.val ∧ n.val ≤ 106751991 →
      ∃ e : epoch,
        epoch.from_fields I32.zero I32.zero n I32.zero I32.zero I32.zero I32.zero I32.zero
          = some e ∧
        e.tp.time_since_epoch.count.val = n.val * 86400000000) := by
  have hf : epoch.from_fields I32.zero I32.zero n I32.zero I32.zero I32.zero I32.zero I32.zero
      = (checked (n.val * 86400000000)).map epoch.of_count := by
    unfold epoch.from_fields
    rw [epoch.make_tp_days]
    unfold epoch.add_field
    have := epoch.cast_dur_days n.toI64
    unfold dur.days at this
    rw [this]
    cases hc : checked (n.toI64.val * 86400000000) with
    | none =>
      have hc' : checked (n.val * 86400000000) = none := hc
      rw [hc']
      rfl
    | some c =>
      have hc' : checked (n.val * 86400000000) = some c := hc
      rw [hc']
      simp only [Option.map_some', Option.some_bind]
      have hadd : kep_clock.time_point.zero.add ⟨c⟩ = some ⟨⟨c⟩⟩ :=
        kep_clock.time_point_add_eq_some.mpr (by simp [kep_clock.time_point.zero])
      rw [hadd]
      rfl
  refine ⟨?_, hf, ?_⟩
  · rw [hf]
    unfold epoch.operator_plus_assign
    rw [epoch.cast_dur_days]
    cases hc : checked (n.toI64.val * 86400000000) with
    | none =>
      have hc' : checked (n.val * 86400000000) = none := hc
      rw [hc']
      rfl
    | some c =>
      have hc' : checked (n.val * 86400000000) = some c := hc
      rw [hc']
      simp only [Option.map_some', Option.some_bind]
      have hadd : epoch.epoch_zero.tp.add ⟨c⟩ = some ⟨⟨c⟩⟩ :=
        kep_clock.time_point_add_eq_some.mpr
          (by simp [epoch.epoch_zero, kep_clock.time_point.zero])
      rw [hadd]
      rfl
  · rintro ⟨h1, h2⟩
    rw [hf]
    have hx : -9223372036854775808 ≤ n.val * 86400000000 ∧
        n.val * 86400000000 ≤ 9223372036854775807 := by omega
    refine ⟨epoch.of_count ⟨n.val * 86400000000, hx.1, hx.2⟩, ?_, rfl⟩
    unfold checked
    rw [dif_pos hx]
    rfl

/-- C11, the cases of the test: `epoch( 0, 0, 100 )` and `epoch( 0, 0, -1 )`. -/
theorem C11_from_fields_counts_days_witness :
    epoch.from_fields I32.zero I32.zero ⟨100, by decide, by decide⟩ I32.zero I32.zero
        I32.zero I32.zero I32.zero
      = epoch.epoch_zero.operator_plus_assign (dur.days ⟨100, by decide, by decide⟩) ∧
    epoch.from_fields I32.zero I32.zero ⟨-1, by decide, by decide⟩ I32.zero I32.zero
        I32.zero I32.zero I32.zero
      = some (epoch.of_count ⟨-86400000000, by decide, by decide⟩) :=
  ⟨(C11_from_fields_counts_days ⟨100, by decide, by decide⟩).1,
   (C11_from_fields_counts_days ⟨-1, by decide, by decide⟩).2.1.trans (by decide)⟩

end kep3

/-! ## Lemmas on the converters and the Lambert solver -/

namespace kep3

theorem apply_elementwise_replicate (f : ℚ → ℚ → Except kep_error ℚ) (ecc : ℚ) :
    ∀ (Ms Es : List ℚ), apply_elementwise f Ms (List.replicate Ms.length ecc) = .ok Es →
      Es.length = Ms.length ∧
      ∀ (i : Nat) (M : ℚ), Ms.get? i = some M → ∃ E, Es.get? i = some E ∧ f M ecc = .ok E := by
  intro Ms
  induction Ms with
  | nil =>
    intro Es h
    simp only [apply_elementwise, Except.ok.injEq] at h
    subst h
    exact ⟨rfl, fun i M hM => by simp at hM⟩
  | cons M0 Ms ih =>
    intro Es h
    simp only [List.length_cons, List.replicate_succ, apply_elementwise] at h
    cases hf : f M0 ecc with
    | error err =>
      rw [hf] at h
      cases h
    | ok E0 =>
      rw [hf] at h
      cases hr : apply_elementwise f Ms (List.replicate Ms.length ecc) with
      | error err =>
        rw [hr] at h
        cases h
      | ok Es0 =>
        rw [hr] at h
        simp only [Except.ok.injEq] at h
        subst h
        obtain ⟨hl, hi⟩ := ih Es0 hr
        refine ⟨by simp [hl], ?_⟩
        intro i M hM
        cases i with
        | zero =>
          simp only [List.get?_cons_zero, Option.some.injEq] at hM
          subst hM
          exact ⟨E0, rfl, hf⟩
        | succ j =>
          simp only [List.get?_cons_succ] at hM
          simpa using hi j M hM

theorem apply_elementwise_replicate_ok (f : ℚ → ℚ → Except kep_error ℚ) (ecc : ℚ) :
    ∀ (Ms : List ℚ), (∀ M ∈ Ms, ∃ E, f M ecc = .ok E) →
      ∃ Es, apply_elementwise f Ms (List.replicate Ms.length ecc) = .ok Es := by
  intro Ms
  induction Ms with
  | nil => exact fun _ => ⟨[], rfl⟩
  | cons M0 Ms ih =>
    intro h
    obtain ⟨E0, hE0⟩ := h M0 (List.mem_cons_self _ _)
    obtain ⟨Es, hEs⟩ := ih (fun M hM => h M (List.mem_cons_of_mem _ hM))
    refine ⟨E0 :: Es, ?_⟩
    simp only [List.length_cons, List.replicate_succ, apply_elementwise, hE0, hEs]

theorem revolution_solutions_infeasible (k : lambert_kernel) (inp : lambert_input) (N : Nat)
    (h : inp.tof < k.min_tof inp N) : k.revolution_solutions inp N = .ok [] := by
  unfold lambert_kernel.revolution_solutions
  rw [if_pos h]

end kep3

/-! ## The constructor from calendar fields, the converters and the Lambert solver -/

namespace kep3

/-- C14: the conversion from mean to eccentric anomaly rejects an eccentricity outside
[0,1). `m2e( 0.5, 1.0 )` is the domain error naming the eccentricity and not a value,
whatever the iteration would do, so the error is reported before iterating; the same
holds for every eccentricity that is negative or at least 1, and an eccentricity in [0,1)
is handed to the iteration. -/
theorem C14_m2e_rejects_ecc_one (kernel : ℚ → ℚ → Except kep_error ℚ) :
    m2e kernel 0.5 1.0 = .error (.domain_error "ecc") ∧
    (∀ E : ℚ, m2e kernel 0.5 1.0 ≠ .ok E) ∧
    (∀ M ecc : ℚ, ¬ (0 ≤ ecc ∧ ecc < 1) →
      m2e kernel M ecc = .error (.domain_error "ecc")) ∧
    (∀ M ecc : ℚ, 0 ≤ ecc ∧ ecc < 1 → m2e kernel M ecc = kernel M ecc) := by
  have h : ∀ M ecc : ℚ, ¬ (0 ≤ ecc ∧ ecc < 1) →
      m2e kernel M ecc = .error (.domain_error "ecc") := by
    intro M ecc hecc
    unfold m2e
    rw [if_neg hecc]
  have h1 : m2e kernel 0.5 1.0 = .error (.domain_error "ecc") := h _ _ (by norm_num)
  refine ⟨h1, fun E hE => ?_, h, fun M ecc hecc => ?_⟩
  · rw [h1] at hE
    cases hE
  · unfold m2e
    rw [if_pos hecc]

/-- C17: the solver rejects collinear position vectors. For `r0 = (1,0,0)`,
`r1 = (2,0,0)`, `tof = 1` and `mu = 1` the result is a domain error and no list of
solutions, whatever the kernel, the direction and the maximum revolution count; and every
input with collinear position vectors is rejected with a domain error. -/
theorem C17_collinear_rejected (k : lambert_kernel) (retrograde : Bool) (N : Nat) :
    lambert_solve k ⟨(1, 0, 0), (2, 0, 0), 1, 1, retrograde⟩ N
      = .error (.domain_error "r0, r1") ∧
    (∀ l, lambert_solve k ⟨(1, 0, 0), (2, 0, 0), 1, 1, retrograde⟩ N ≠ .ok l) ∧
    (∀ inp : lambert_input, cross inp.r0 inp.r1 = (0, 0, 0) →
      ∃ a, lambert_solve k inp N = .error (.domain_error a)) := by
  have h1 : lambert_solve k ⟨(1, 0, 0), (2, 0, 0), 1, 1, retrograde⟩ N
      = .error (.domain_error "r0, r1") := by
    unfold lambert_solve
    rw [if_neg (by norm_num), if_neg (by norm_num), if_pos (by simp [cross])]
  refine ⟨h1, fun l hl => ?_, fun inp hc => ?_⟩
  · rw [h1] at hl
    cases hl
  · unfold lambert_solve
    split_ifs
    · exact ⟨_, rfl⟩
    · exact ⟨_, rfl⟩
    · exact ⟨_, rfl⟩

/-- C18: the vectorized converter is the elementwise map of the scalar converter. When
`m2e_v( Ms, ecc )` returns a sequence, it has the length of `Ms` and its element of index
`i` is the value of `m2e( Ms[i], ecc )`; and it returns a sequence whenever the scalar
converter returns a value on every element. -/
theorem C18_m2e_v_elementwise (kernel : ℚ → ℚ → Except kep_error ℚ) (Ms : List ℚ) (ecc : ℚ) :
    (∀ Es : List ℚ, m2e_v kernel Ms (.scalar ecc) = .ok Es →
      Es.length = Ms.length ∧
      ∀ (i : Nat) (M : ℚ), Ms.get? i = some M →
        ∃ E, Es.get? i = some E ∧ m2e kernel M ecc = .ok E) ∧
    ((∀ M ∈ Ms, ∃ E, m2e kernel M ecc = .ok E) →
      ∃ Es : List ℚ, m2e_v kernel Ms (.scalar ecc) = .ok Es) := by
  have hv : m2e_v kernel Ms (.scalar ecc)
      = apply_elementwise (m2e kernel) Ms (List.replicate Ms.length ecc) := rfl
  rw [hv]
  exact ⟨apply_elementwise_replicate (m2e kernel) ecc Ms,
    apply_elementwise_replicate_ok (m2e kernel) ecc Ms⟩

/-- C18, the documented example: 100 inputs and the eccentricity 0.375 give 100 outputs. -/
theorem C18_m2e_v_elementwise_witness :
    ∃ Es : List ℚ, m2e_v example_anomaly_kernel example_anomalies (.scalar 0.375) = .ok Es ∧
      Es.length = 100 := by
  obtain ⟨Es, hEs⟩ := (C18_m2e_v_elementwise example_anomaly_kernel example_anomalies 0.375).2
    (fun M _ => ⟨M, by
      unfold m2e example_anomaly_kernel
      rw [if_pos (by norm_num)]⟩)
  refine ⟨Es, hEs, ?_⟩
  rw [((C18_m2e_v_elementwise example_anomaly_kernel example_anomalies 0.375).1 Es hEs).1]
  unfold example_anomalies
  rw [List.length_map, List.length_range]

end kep3

/-! ## The default name of the Python constructors -/

namespace kep3

namespace pykep

theorem bind_from_get (call : py_call) :
    ∀ (args : List py_arg) (i : Nat) (vs : List py_value),
      bind_from call i args = some vs →
      ∀ (j : Nat) (a : py_arg), args.get? j = some a → vs.get? j = bind_arg call (i + j) a := by
  intro args
  induction args with
  | nil =>
    intro i vs _ j a ha
    simp at ha
  | cons a0 rest ih =>
    intro i vs h j a ha
    simp only [bind_from] at h
    cases h0 : bind_arg call i a0 with
    | none =>
      rw [h0] at h
      cases h
    | some v0 =>
      rw [h0] at h
      cases hr : bind_from call (i + 1) rest with
      | none =>
        rw [hr] at h
        cases h
      | some vs0 =>
        rw [hr] at h
        simp only [Option.some.injEq] at h
        subst h
        cases j with
        | zero =>
          simp only [List.get?_cons_zero, Option.some.injEq] at ha
          subst ha
          simpa using h0.symm
        | succ j0 =>
          simp only [List.get?_cons_succ] at ha
          have := ih (i + 1) vs0 hr j0 a ha
          simp only [List.get?_cons_succ]
          rw [this]
          congr 1
          omega

theorem bind_args_name (args : List py_arg) (call : py_call) (vs : List py_value)
    (hargs : args.get? 3 = some ⟨"name", some (.str "unknown")⟩)
    (hpos : call.positional.length ≤ 3) (hname : call.keywords.lookup "name" = none)
    (h : bind_args args call = some vs) : vs.get? 3 = some (.str "unknown") := by
  unfold bind_args at h
  split at h
  · cases h
  · split at h
    · cases h
    · rw [bind_from_get call args 0 vs h 3 _ hargs]
      unfold bind_arg
      have hp : call.positional.get? (0 + 3) = none := List.get?_eq_none.mpr (by omega)
      rw [hp]
      simp only [hname]

/-- C19, counterexample: a call of either constructor that leaves the name out passes
the name `unknown`, which is not the `unkown` of the docstrings. -/
theorem C19_default_name_is_not_unkown :
    bound_name keplerian_init_elem example_call_elem = some (.str "unknown") ∧
    bound_name keplerian_init_posvel example_call_posvel = some (.str "unknown") ∧
    bound_name keplerian_init_elem example_call_elem ≠ some (.str "unkown") ∧
    bound_name keplerian_init_posvel example_call_posvel ≠ some (.str "unkown") ∧
    docstring_default_name = "unkown" := by
  have h1 : bound_name keplerian_init_elem example_call_elem = some (.str "unknown") := by
    decide
  have h2 : bound_name keplerian_init_posvel example_call_posvel = some (.str "unknown") := by
    decide
  refine ⟨h1, h2, ?_, ?_, rfl⟩
  · rw [h1]
    decide
  · rw [h2]
    decide

/-- C19, amended: when the name argument is omitted, both Python constructors of the
keplerian udpla pass the default name `unknown`. For every call with at most three
positional arguments and no keyword `name`, the values bound by either constructor, when
the call is accepted, have `unknown` as the name. -/
theorem C19_default_name_unknown (call : py_call) (hpos : call.positional.length ≤ 3)
    (hname : call.keywords.lookup "name" = none) :
    (∀ vs, bind_args keplerian_init_elem call = some vs →
      vs.get? 3 = some (.str "unknown")) ∧
    (∀ vs, bind_args keplerian_init_posvel call = some vs →
      vs.get? 3 = some (.str "unknown")) :=
  ⟨fun vs h => bind_args_name keplerian_init_elem call vs rfl hpos hname h,
   fun vs h => bind_args_name keplerian_init_posvel call vs rfl hpos hname h⟩

/-- C19, amended, on the calls of the docstring examples with the name left out, one with
keyword arguments and one with positional arguments: both are accepted. -/
theorem C19_default_name_unknown_witness :
    (∃ vs, bind_args keplerian_init_elem example_call_elem = some vs ∧
      vs.get? 3 = some (.str "unknown")) ∧
    (∃ vs, bind_args keplerian_init_posvel example_call_posvel = some vs ∧
      vs.get? 3 = some (.str "unknown")) :=
  ⟨⟨[.epoch epoch.epoch_zero, .array [1, 0, 0, 0, 0, 0], .float 1, .str "unknown",
      .array [-1, -1, -1], .KEP_F], by decide,
     (C19_default_name_unknown example_call_elem (by decide) (by decide)).1 _ (by decide)⟩,
   ⟨[.epoch epoch.epoch_zero, .matrix [[1, 0, 0], [0, 1, 0]], .float 1, .str "unknown",
      .array [-1, -1, -1]], by decide,
     (C19_default_name_unknown example_call_posvel (by decide) (by decide)).2 _ (by decide)⟩⟩

end pykep

end kep3

/-! ## The conversions to and from time_t -/

namespace kep3

namespace kep_clock

theorem duration_cast_seconds_micro (s : I64) :
    duration_cast period.seconds period.micro s = checked (s.val * 1000000) := by
  have h1 : CF_num period.seconds period.micro = 1000000 := by decide
  have h2 : CF_den period.seconds period.micro = 1 := by decide
  unfold duration_cast
  simp only [h1, h2]
  rw [if_neg (by decide), if_neg (by decide), if_pos trivial]
  rfl

theorem duration_cast_micro_seconds (c : I64) :
    duration_cast period.micro period.seconds c = checked (Int.tdiv c.val 1000000) := by
  have h1 : CF_num period.micro period.seconds = 1 := by decide
  have h2 : CF_den period.micro period.seconds = 1000000 := by decide
  unfold duration_cast
  simp only [h1, h2]
  rw [if_neg (by decide), if_neg (by decide), if_neg (by decide), if_pos trivial]
  rfl

theorem duration_cast_micro_micro (c : I64) :
    duration_cast period.micro period.micro c = some c := by
  have h1 : CF_num period.micro period.micro = 1 := by decide
  have h2 : CF_den period.micro period.micro = 1 := by decide
  unfold duration_cast
  simp only [h1, h2]
  rw [if_neg (by decide), if_pos ⟨trivial, trivial⟩]

theorem checked_of_range {x : Int} (h1 : -9223372036854775808 ≤ x)
    (h2 : x ≤ 9223372036854775807) : checked x = some ⟨x, h1, h2⟩ := by
  unfold checked
  rw [dif_pos ⟨h1, h2⟩]

theorem from_time_t_eq_some {t : I64} {tp : time_point} :
    from_time_t t = some tp ↔
      tp.time_since_epoch.count.val = (t.val - 946684800) * 1000000 := by
  unfold from_time_t of_seconds y2k_offset
  constructor
  · intro h
    rw [Option.bind_eq_some] at h
    obtain ⟨s, hs, h⟩ := h
    rw [Option.bind_eq_some] at h
    obtain ⟨d, hd, h⟩ := h
    rw [duration_cast_micro_micro] at h
    simp only [Option.map_some', Option.some.injEq] at h
    subst h
    rw [duration_cast_seconds_micro, Option.map_eq_some'] at hd
    obtain ⟨c, hc, rfl⟩ := hd
    rw [checked_eq_some.mp hc, checked_eq_some.mp hs]
  · intro h
    have hlo := tp.time_since_epoch.count.lo
    have hhi := tp.time_since_epoch.count.hi
    have hs1 : -9223372036854775808 ≤ t.val - 946684800 := by omega
    have hs2 : t.val - 946684800 ≤ 9223372036854775807 := by omega
    rw [checked_of_range hs1 hs2, Option.some_bind, duration_cast_seconds_micro]
    have hc : checked ((t.val - 946684800) * 1000000) = some tp.time_since_epoch.count :=
      checked_eq_some.mpr h
    show ((checked ((t.val - 946684800) * 1000000)).map duration.mk).bind _ = _
    rw [hc]
    simp only [Option.map_some', Option.some_bind, duration_cast_micro_micro]

theorem to_time_t_eq_some {tp : time_point} {t : I64}
    (h1 : tp.time_since_epoch.count.val + 946684800000000 ≤ 9223372036854775807)
    (h2 : t.val = Int.tdiv (tp.time_since_epoch.count.val + 946684800000000) 1000000) :
    to_time_t tp = some t := by
  unfold to_time_t of_seconds
  rw [duration_cast_seconds_micro]
  have hy : checked (y2k_offset.val * 1000000)
      = some ⟨946684800000000, by decide, by decide⟩ := by decide
  rw [hy]
  simp only [Option.map_some', Option.some_bind]
  have hlo := tp.time_since_epoch.count.lo
  have hadd : tp.time_since_epoch.add ⟨⟨946684800000000, by decide, by decide⟩⟩
      = some ⟨⟨tp.time_since_epoch.count.val + 946684800000000, by omega, h1⟩⟩ :=
    duration_add_eq_some.mpr rfl
  rw [hadd, Option.some_bind, duration_cast_micro_seconds]
  exact checked_eq_some.mpr h2

end kep_clock

/-- C20, counterexample: for `t = 9224318721654` the product `(t - 946684800) * 10^6` is
9223372036854000000 and fits in 64 bits, so `from_time_t( t )` is defined, but
`to_time_t` adds 946684800000000 microseconds to it, which overflows: the round trip has
no defined result and does not give `t`. -/
theorem C20_round_trip_overflow :
    kep_clock.from_time_t ⟨9224318721654, by decide, by decide⟩
      = some ⟨⟨⟨9223372036854000000, by decide, by decide⟩⟩⟩ ∧
    (kep_clock.from_time_t ⟨9224318721654, by decide, by decide⟩).bind kep_clock.to_time_t
      = none ∧
    (kep_clock.from_time_t ⟨9224318721654, by decide, by decide⟩).bind kep_clock.to_time_t
      ≠ some ⟨9224318721654, by decide, by decide⟩ := by
  decide

/-- C20, amended: `to_time_t` undoes `from_time_t` for every `t` for which both
`(t - 946684800) * 10^6` and `t * 10^6` fit in 64 bits: `from_time_t( t )` is then the
time point at `(t - 946684800) * 10^6` microseconds and `to_time_t` of it is `t`. -/
theorem C20_to_time_t_from_time_t (t : I64)
    (hlo : -9223372036854775808 ≤ (t.val - 946684800) * 1000000)
    (hhi : t.val * 1000000 ≤ 9223372036854775807) :
    ∃ tp : kep_clock.time_point, kep_clock.from_time_t t = some tp ∧
      tp.time_since_epoch.count.val = (t.val - 946684800) * 1000000 ∧
      kep_clock.to_time_t tp = some t := by
  have hhi2 : (t.val - 946684800) * 1000000 ≤ 9223372036854775807 := by omega
  refine ⟨⟨⟨⟨(t.val - 946684800) * 1000000, hlo, hhi2⟩⟩⟩,
    kep_clock.from_time_t_eq_some.mpr rfl, rfl, ?_⟩
  apply kep_clock.to_time_t_eq_some
  · show (t.val - 946684800) * 1000000 + 946684800000000 ≤ 9223372036854775807
    omega
  · show t.val = Int.tdiv ((t.val - 946684800) * 1000000 + 946684800000000) 1000000
    have : (t.val - 946684800) * 1000000 + 946684800000000 = t.val * 1000000 := by ring
    rw [this, Int.mul_tdiv_cancel _ (by decide)]

/-- C20, amended, at the Unix time of the MJD2000 reference and at a time before 1970. -/
theorem C20_to_time_t_from_time_t_witness :
    (∃ tp : kep_clock.time_point,
      kep_clock.from_time_t ⟨946684800, by decide, by decide⟩ = some tp ∧
      tp.time_since_epoch.count.val = (946684800 - 946684800) * 1000000 ∧
      kep_clock.to_time_t tp = some ⟨946684800, by decide, by decide⟩) ∧
    (kep_clock.from_time_t ⟨-5, by decide, by decide⟩).bind kep_clock.to_time_t
      = some ⟨-5, by decide, by decide⟩ :=
  ⟨C20_to_time_t_from_time_t ⟨946684800, by decide, by decide⟩ (by decide) (by decide),
   by decide⟩

end kep3

/-! ## The sub-second part discarded by to_time_t -/

namespace kep3

/-- C21, counterexample: the largest time point, 9223372036854775807 microseconds, is after
the Unix epoch, but `to_time_t` adds 946684800000000 microseconds to it before dividing,
which overflows: `to_time_t( tp )` has no defined result, and neither has the round trip. -/
theorem C21_to_time_t_overflow :
    (0 : Int) ≤ 9223372036854775807 + 946684800000000 ∧
    kep_clock.to_time_t ⟨⟨⟨9223372036854775807, by decide, by decide⟩⟩⟩ = none ∧
    (kep_clock.to_time_t ⟨⟨⟨9223372036854775807, by decide, by decide⟩⟩⟩).bind
      kep_clock.from_time_t = none := by
  decide

/-- C21, amended: `to_time_t` discards the sub-second part. For every time point `tp` at
or after the Unix epoch for which `tp + 946684800 s` fits in 64 bits of microseconds,
`to_time_t( tp )` and `from_time_t( to_time_t( tp ) )` are defined, the latter is at most
`tp` and less than one second (1000000 microseconds) before it, and it is `tp` exactly
when `tp` is a whole number of seconds. -/
theorem C21_to_time_t_discards_subsecond (tp : kep_clock.time_point)
    (h0 : 0 ≤ tp.time_since_epoch.count.val + 946684800000000)
    (h1 : tp.time_since_epoch.count.val + 946684800000000 ≤ 9223372036854775807) :
    ∃ (t : I64) (r : kep_clock.time_point),
      kep_clock.to_time_t tp = some t ∧ kep_clock.from_time_t t = some r ∧
      r.time_since_epoch.count.val ≤ tp.time_since_epoch.count.val ∧
      tp.time_since_epoch.count.val - r.time_since_epoch.count.val < 1000000 ∧
      (r = tp ↔ (1000000 : Int) ∣ tp.time_since_epoch.count.val) := by
  have hq : Int.tdiv (tp.time_since_epoch.count.val + 946684800000000) 1000000
      = (tp.time_since_epoch.count.val + 946684800000000) / 1000000 :=
    Int.tdiv_eq_ediv h0 (by decide)
  have hlo := tp.time_since_epoch.count.lo
  refine ⟨⟨(tp.time_since_epoch.count.val + 946684800000000) / 1000000, by omega, by omega⟩,
    ⟨⟨⟨((tp.time_since_epoch.count.val + 946684800000000) / 1000000 - 946684800) * 1000000,
      by omega, by omega⟩⟩⟩, ?_, ?_, ?_, ?_, ?_⟩
  · exact kep_clock.to_time_t_eq_some h1 hq.symm
  · exact kep_clock.from_time_t_eq_some.mpr rfl
  · show ((tp.time_since_epoch.count.val + 946684800000000) / 1000000 - 946684800) * 1000000
      ≤ tp.time_since_epoch.count.val
    omega
  · show tp.time_since_epoch.count.val
      - ((tp.time_since_epoch.count.val + 946684800000000) / 1000000 - 946684800) * 1000000
      < 1000000
    omega
  · constructor
    · intro h
      have hv : ((tp.time_since_epoch.count.val + 946684800000000) / 1000000 - 946684800)
          * 1000000 = tp.time_since_epoch.count.val :=
        congrArg (fun x : kep_clock.time_point => x.time_since_epoch.count.val) h
      omega
    · intro h
      apply kep_clock.time_point_ext_val
      show ((tp.time_since_epoch.count.val + 946684800000000) / 1000000 - 946684800) * 1000000
        = tp.time_since_epoch.count.val
      omega

/-- C21, amended, at a time point with a sub-second part: 1500000 microseconds after the
zero of the clock, `to_time_t` gives 946684801 and `from_time_t` of it is the time point
at 1000000 microseconds. -/
theorem C21_to_time_t_discards_subsecond_witness :
    kep_clock.to_time_t ⟨⟨⟨1500000, by decide, by decide⟩⟩⟩
      = some ⟨946684801, by decide, by decide⟩ ∧
    kep_clock.from_time_t ⟨946684801, by decide, by decide⟩
      = some ⟨⟨⟨1000000, by decide, by decide⟩⟩⟩ ∧
    (∃ (t : I64) (r : kep_clock.time_point),
      kep_clock.to_time_t ⟨⟨⟨1500000, by decide, by decide⟩⟩⟩ = some t ∧
      kep_clock.from_time_t t = some r ∧
      r.time_since_epoch.count.val ≤ 1500000 ∧
      1500000 - r.time_since_epoch.count.val < 1000000 ∧
      (r = ⟨⟨⟨1500000, by decide, by decide⟩⟩⟩ ↔ (1000000 : Int) ∣ 1500000)) :=
  ⟨by decide, by decide,
   C21_to_time_t_discards_subsecond ⟨⟨⟨1500000, by decide, by decide⟩⟩⟩
     (by decide) (by decide)⟩

end kep3
